import Mathlib

/-!
Verification of the web-ssh proxy backend (Desgue/web-ssh).

This file shallowly embeds the Go backend's message codec
(`server/handler/message.go`), the websocket read loops
(`server/handler/websocket.go` and the earlier simulated-shell handler),
and the configuration helpers (`server/server.go`, package `config`),
and proves/refutes the specification's claims about them.

Go machine integers are modelled as `Int`/`Nat` with explicit range
checks where the code's behaviour depends on them; fallible Go
`(value, error)` returns are modelled as `Except`/`Option`.
-/

namespace WebSSH

/-- A parsed JSON value. JSON numbers are modelled as integers: every
payload the codec inspects numerically is an integer field
(`exit_code`), and no claim depends on fractional numerics. -/
inductive JValue where
  | null : JValue
  | bool (b : Bool) : JValue
  | num (n : Int) : JValue
  | str (s : String) : JValue
  | arr (xs : List JValue) : JValue
  | obj (fields : List (String × JValue)) : JValue

/-- A Go `time.Time` instant, modelled by its RFC3339 rendering (the only
representation the codec ever exchanges: `time.Time` marshals/unmarshals
as an RFC3339 string). -/
structure GoTime where
  rfc : String
deriving Repr, DecidableEq

/-- The zero `time.Time`. -/
def GoTime.zero : GoTime := ⟨"0001-01-01T00:00:00Z"⟩

/-- `MessageType` from message.go is `type MessageType string`: an open
string type with named constants, with no validation anywhere. -/
def MessageType := String
deriving instance DecidableEq, Repr for MessageType

def MessageTypeTerminalInput : MessageType := "terminal_input"
def MessageTypeTerminalOutput : MessageType := "terminal_output"
def MessageTypeTerminalError : MessageType := "terminal_error"
def MessageTypeSystemMessage : MessageType := "system_message"
def MessageTypeConnectionState : MessageType := "connection_state"
def MessageTypeRequestPrompt : MessageType := "request_prompt"

/-- Modelled from the spec: the constant `MessageTypeConnectionRequest`
is referenced by websocket.go but declared in repository code missing
from src; the spec's wire enumeration (§6) gives its value
`connection_request`. -/
def MessageTypeConnectionRequest : MessageType := "connection_request"

/-- `MessageMetadata` from message.go. -/
structure MessageMetadata where
  hasAnsi : Bool
  exitCode : Option Int
  command : String
  sshHost : String
  sshUser : String
  sessionID : String
deriving Repr, DecidableEq

/-- The zero value of `MessageMetadata`. -/
def MessageMetadata.zero : MessageMetadata :=
  { hasAnsi := false, exitCode := none, command := ""
    sshHost := "", sshUser := "", sessionID := "" }

/-- `Message` from message.go. The `Metadata *MessageMetadata` pointer is
an `Option`. -/
structure Message where
  type : MessageType
  data : String
  timestamp : GoTime
  metadata : Option MessageMetadata
deriving Repr, DecidableEq

/-- The zero value of `Message`. -/
def Message.zero : Message :=
  { type := "", data := "", timestamp := GoTime.zero, metadata := none }

/-- `NewMessage` from message.go; `time.Now()` is passed explicitly as
`now`. -/
def NewMessage (now : GoTime) (msgType : MessageType) (data : String) : Message :=
  { type := msgType, data := data, timestamp := now, metadata := none }

/-- `NewSystemMessage` from message.go. -/
def NewSystemMessage (now : GoTime) (message : String) : Message :=
  NewMessage now MessageTypeSystemMessage message

/-- `NewTerminalError` from message.go. -/
def NewTerminalError (now : GoTime) (errorMsg : String) : Message :=
  NewMessage now MessageTypeTerminalError errorMsg

/-- After `ESC [`, the regex remainder `[0-9;]*[mK]`: consume digits and
semicolons, then require `m` or `K`. The character classes are disjoint,
so this deterministic scan is exactly the regex's backtracking search. -/
def ansiTail : List Char → Bool
  | [] => false
  | c :: rest =>
    if c = 'm' ∨ c = 'K' then true
    else if ('0' ≤ c ∧ c ≤ '9') ∨ c = ';' then ansiTail rest
    else false

/-- Search for a match of `\x1b\[[0-9;]*[mK]` starting at each position,
as `regexp.MatchString` does. -/
def hasAnsiAux : List Char → Bool
  | [] => false
  | c :: rest =>
    (c == Char.ofNat 27 && (match rest with
      | '[' :: rest2 => ansiTail rest2
      | _ => false)) || hasAnsiAux rest

/-- `containsAnsiCodes` from message.go: whether the string matches the
regex `\x1b\[[0-9;]*[mK]` anywhere. -/
def containsAnsiCodes (s : String) : Bool :=
  hasAnsiAux s.data

/-- `NewTerminalOutput` from message.go. -/
def NewTerminalOutput (now : GoTime) (output : String) (command : String)
    (exitCode : Option Int) : Message :=
  let msg := NewMessage now MessageTypeTerminalOutput output
  { msg with
    metadata := some { MessageMetadata.zero with
      hasAnsi := containsAnsiCodes output
      command := command
      exitCode := exitCode } }

/-- `NewSSHTerminalOutput` from message.go. -/
def NewSSHTerminalOutput (now : GoTime) (output : String) (command : String)
    (exitCode : Option Int) (sshHost sshUser sessionID : String) : Message :=
  let msg := NewTerminalOutput now output command exitCode
  let md := msg.metadata.getD MessageMetadata.zero
  { msg with
    metadata := some { md with
      sshHost := sshHost, sshUser := sshUser, sessionID := sessionID } }

/-- Lower-case hexadecimal digit, as Go's json encoder emits. -/
def hexDigit (n : Nat) : Char :=
  if n < 10 then Char.ofNat (48 + n) else Char.ofNat (87 + n)

/-- Four lower-case hex digits. -/
def hex4 (n : Nat) : String :=
  String.mk [hexDigit (n / 4096 % 16), hexDigit (n / 256 % 16),
             hexDigit (n / 16 % 16), hexDigit (n % 16)]

/-- One character of Go `encoding/json` string escaping (default
HTML-escaping mode, as `json.Marshal` uses): quote, backslash, newline,
carriage return and tab get two-character escapes; other control
characters and `<`, `>`, `&` (and U+2028/U+2029) become `\uXXXX`. -/
def goEscChar (c : Char) : String :=
  if c = '"' then "\\\""
  else if c = '\\' then "\\\\"
  else if c = '\n' then "\\n"
  else if c = '\r' then "\\r"
  else if c = '\t' then "\\t"
  else if c.toNat < 32 ∨ c = '<' ∨ c = '>' ∨ c = '&'
       ∨ c.toNat = 0x2028 ∨ c.toNat = 0x2029 then "\\u" ++ hex4 c.toNat
  else String.mk [c]

/-- Go `encoding/json` encoding of a string value. -/
def goEncodeString (s : String) : String :=
  "\"" ++ String.join (s.data.map goEscChar) ++ "\""

/-- `ConnectionState` from message.go is `type ConnectionState string`. -/
def ConnectionState := String
deriving instance DecidableEq, Repr for ConnectionState

def ConnectionStateConnected : ConnectionState := "connected"
def ConnectionStateDisconnected : ConnectionState := "disconnected"
def ConnectionStateConnecting : ConnectionState := "connecting"
def ConnectionStateError : ConnectionState := "error"

/-- `json.Marshal` of the `ConnectionStateMessage` struct from
message.go: `State` under key `state`, `Message` under key `message`
with `omitempty`, so the key is absent when the string is empty. -/
def marshalConnStateMsg (state : ConnectionState) (message : String) : String :=
  "\x7b\"state\":" ++ goEncodeString state ++
    (if message = "" then "" else ",\"message\":" ++ goEncodeString message) ++ "\x7d"

/-- `NewConnectionStateMessage` from message.go: marshals the nested
struct and wraps it in a `connection_state` message. (`json.Marshal`
cannot fail on this struct, so the discarded error is always nil.) -/
def NewConnectionStateMessage (now : GoTime) (state : ConnectionState)
    (message : String) : Message :=
  NewMessage now MessageTypeConnectionState (marshalConnStateMsg state message)

/-! ### `json.Unmarshal` into `Message` (`ParseMessage`) -/

/-- Read exactly `n` decimal digits, returning their value. -/
def readDigits : Nat → List Char → Option (Nat × List Char)
  | 0, cs => some (0, cs)
  | _ + 1, [] => none
  | n + 1, c :: cs =>
    if '0' ≤ c ∧ c ≤ '9' then
      match readDigits n cs with
      | some (v, rest) => some ((c.toNat - 48) * 10 ^ n + v, rest)
      | none => none
    else none

def isLeapYear (y : Nat) : Bool :=
  y % 4 == 0 && (y % 100 != 0 || y % 400 == 0)

def daysInMonth (y m : Nat) : Nat :=
  if m = 2 then (if isLeapYear y then 29 else 28)
  else if m = 4 ∨ m = 6 ∨ m = 9 ∨ m = 11 then 30
  else 31

/-- Fractional seconds: a dot followed by at least one digit. -/
def fracOk : List Char → Option (List Char)
  | '.' :: c :: cs =>
    if '0' ≤ c ∧ c ≤ '9' then
      some (cs.dropWhile (fun d => '0' ≤ d ∧ d ≤ '9'))
    else none
  | cs => some cs

/-- Timezone suffix: `Z`, or a signed `HH:MM` offset. -/
def tzOk : List Char → Bool
  | ['Z'] => true
  | c :: cs =>
    if c = '+' ∨ c = '-' then
      match readDigits 2 cs with
      | some (oh, ':' :: cs2) =>
        (match readDigits 2 cs2 with
         | some (om, []) => oh ≤ 23 && om ≤ 59
         | _ => false)
      | _ => false
    else false
  | _ => false

/-- Whether Go `time.Time.UnmarshalJSON` accepts the string: RFC3339
(`YYYY-MM-DDTHH:MM:SS[.frac](Z|±HH:MM)`) with calendar-valid fields. -/
def rfc3339Ok (s : String) : Bool :=
  match readDigits 4 s.data with
  | some (y, '-' :: cs1) =>
    (match readDigits 2 cs1 with
     | some (mo, '-' :: cs2) =>
       (match readDigits 2 cs2 with
        | some (d, 'T' :: cs3) =>
          (match readDigits 2 cs3 with
           | some (h, ':' :: cs4) =>
             (match readDigits 2 cs4 with
              | some (mi, ':' :: cs5) =>
                (match readDigits 2 cs5 with
                 | some (se, cs6) =>
                   (1 ≤ mo && mo ≤ 12 && 1 ≤ d && d ≤ daysInMonth y mo &&
                    h ≤ 23 && mi ≤ 59 && se ≤ 59) &&
                   (match fracOk cs6 with
                    | some cs7 => tzOk cs7
                    | none => false)
                 | none => false)
              | _ => false)
           | _ => false)
        | _ => false)
     | _ => false)
  | _ => false

/-- ASCII lower-casing of one character. -/
def lowerChar (c : Char) : Char :=
  if 'A' ≤ c ∧ c ≤ 'Z' then Char.ofNat (c.toNat + 32) else c

/-- ASCII lower-casing of a key, for `encoding/json`'s case-insensitive
field-name match (the struct tags here are all ASCII). -/
def lowerKey (s : String) : String :=
  String.mk (s.data.map lowerChar)

/-- Go's 64-bit signed integer range check used when decoding a JSON
number into an `int`. -/
def int64InRange (n : Int) : Bool :=
  -(2 ^ 63) ≤ n && n < 2 ^ 63

/-- Decode one JSON object field into `MessageMetadata`, as
`encoding/json` does for the tagged struct fields of message.go: key
match is case-insensitive, `null` leaves the field untouched, a
wrong-typed value is an error, unknown keys are ignored. -/
def applyMetaField (md : MessageMetadata) : String × JValue → Except Unit MessageMetadata
  | (k, v) =>
    let key := lowerKey k
    if key = "has_ansi" then
      match v with
      | .bool b => .ok { md with hasAnsi := b }
      | .null => .ok md
      | _ => .error ()
    else if key = "exit_code" then
      match v with
      | .num n => if int64InRange n then .ok { md with exitCode := some n } else .error ()
      | .null => .ok md
      | _ => .error ()
    else if key = "command" then
      match v with
      | .str s => .ok { md with command := s }
      | .null => .ok md
      | _ => .error ()
    else if key = "ssh_host" then
      match v with
      | .str s => .ok { md with sshHost := s }
      | .null => .ok md
      | _ => .error ()
    else if key = "ssh_user" then
      match v with
      | .str s => .ok { md with sshUser := s }
      | .null => .ok md
      | _ => .error ()
    else if key = "session_id" then
      match v with
      | .str s => .ok { md with sessionID := s }
      | .null => .ok md
      | _ => .error ()
    else .ok md

/-- Decode one JSON object field into `Message`, per the struct tags of
message.go (`type`, `data`, `timestamp`, `metadata`). -/
def applyMsgField (m : Message) : String × JValue → Except Unit Message
  | (k, v) =>
    let key := lowerKey k
    if key = "type" then
      match v with
      | .str s => .ok { m with type := s }
      | .null => .ok m
      | _ => .error ()
    else if key = "data" then
      match v with
      | .str s => .ok { m with data := s }
      | .null => .ok m
      | _ => .error ()
    else if key = "timestamp" then
      match v with
      | .str s => if rfc3339Ok s then .ok { m with timestamp := ⟨s⟩ } else .error ()
      | .null => .ok m
      | _ => .error ()
    else if key = "metadata" then
      match v with
      | .null => .ok { m with metadata := none }
      | .obj fs =>
        match fs.foldlM applyMetaField MessageMetadata.zero with
        | .ok md => .ok { m with metadata := some md }
        | .error e => .error e
      | _ => .error ()
    else .ok m

/-- `json.Unmarshal(data, &msg)` for the `Message` struct: a top-level
`null` is a no-op success leaving the zero value, a top-level object is
decoded field by field (later duplicate keys overwrite), and any other
top-level value is a type error. -/
def unmarshalMessage : JValue → Except Unit Message
  | .null => .ok Message.zero
  | .obj fs => fs.foldlM applyMsgField Message.zero
  | _ => .error ()

/-- `ParseMessage` from message.go. The input models the received frame
bytes as already lexed JSON: `none` stands for bytes that are not valid
JSON (a syntax error from `json.Unmarshal`), `some v` for bytes parsing
to the value `v`. The Go function returns `(&msg, err)`; callers discard
the message whenever `err != nil`, which this `Except` models. -/
def ParseMessage (b : Option JValue) : Except Unit Message :=
  match b with
  | none => .error ()
  | some v => unmarshalMessage v

/-! ### The simulated shell session (`HandlerDeps` handler file) -/

/-- Go `unicode.IsSpace`: ASCII whitespace, NEL, NBSP and the Unicode
space separators. -/
def isGoSpace (c : Char) : Bool :=
  let n := c.toNat
  n = 9 || n = 10 || n = 11 || n = 12 || n = 13 || n = 32 || n = 133 || n = 160 ||
  n = 0x1680 || (0x2000 ≤ n && n ≤ 0x200A) || n = 0x2028 || n = 0x2029 ||
  n = 0x202F || n = 0x205F || n = 0x3000

/-- `strings.TrimSpace`. -/
def goTrimSpace (s : String) : String :=
  String.mk (((s.data.dropWhile isGoSpace).reverse.dropWhile isGoSpace).reverse)

/-- `ShellSession` from the simulated-shell handler: the input buffer
and the prompt. The `conn` field is the output channel; writes to it are
modelled as the lists of `Message`s the operations below return. -/
structure ShellSession where
  currentInput : String
  prompt : String
deriving Repr, DecidableEq

/-- `NewShellSession`. -/
def NewShellSession : ShellSession :=
  { currentInput := "", prompt := "user@webssh:~$ " }

/-- `ShellSession.sendOutput`: wraps data in a terminal-output message
and writes it to the websocket. -/
def sendOutput (now : GoTime) (data : String) : List Message :=
  [NewTerminalOutput now data "" none]

/-- `ShellSession.handleBackspace`. Go truncates the final *byte*
(`s.currentInput[:len(s.currentInput)-1]`); the buffer only ever holds
single-byte printable ASCII (proved below), on which dropping the final
byte and dropping the final character coincide. -/
def handleBackspace (now : GoTime) (s : ShellSession) : ShellSession × List Message :=
  if s.currentInput.length > 0 then
    ({ s with currentInput := String.mk s.currentInput.data.dropLast },
     sendOutput now "\x08 \x08")
  else (s, [])

/-- `ShellSession.executeCommand`: the built-in command table of the
simulation. An empty command returns early; otherwise the output is sent
as one terminal-output message carrying the command. -/
def executeCommand (now : GoTime) (cmd : String) : List Message :=
  if cmd = "" then []
  else
    let output :=
      if cmd = "ls" then "Desktop  Documents  Downloads  Pictures  Videos\r\n"
      else if cmd = "pwd" then "/home/user\r\n"
      else if "echo ".data.isPrefixOf cmd.data then String.mk (cmd.data.drop 5) ++ "\r\n"
      else if cmd = "date" then "Mon Aug 12 14:00:00 UTC 2025\r\n"
      else if cmd = "whoami" then "user\r\n"
      else if cmd = "clear" then "\x1b[2J\x1b[H"
      else cmd ++ ": command not found\r\n"
    if output = "" then [] else [NewTerminalOutput now output cmd none]

/-- `ShellSession.showPrompt`. -/
def showPrompt (now : GoTime) (s : ShellSession) : List Message :=
  [NewTerminalOutput now s.prompt "" none]

/-- `ShellSession.processCommand`: trim the buffer, echo a newline, run
the command, clear the buffer, show a fresh prompt. -/
def processCommand (now : GoTime) (s : ShellSession) : ShellSession × List Message :=
  let cmd := goTrimSpace s.currentInput
  let s' := { s with currentInput := "" }
  (s', sendOutput now "\r\n" ++ executeCommand now cmd ++ showPrompt now s')

/-- `ShellSession.HandleInput`: dispatch on the exact input string.
`\r`/`\n` run the buffered command, DEL is backspace, and a single
printable-ASCII byte is echoed and appended; everything else is ignored.
(Go checks `len(input) == 1 && input[0] >= 32 && input[0] <= 126` on
bytes; a string is one byte in `[32,126]` exactly when it is one
character with that code.) -/
def HandleInput (now : GoTime) (input : String) (s : ShellSession) :
    ShellSession × List Message :=
  if input = "\r" ∨ input = "\n" then processCommand now s
  else if input = "\u007F" then handleBackspace now s
  else
    match input.data with
    | [c] =>
      if 32 ≤ c.toNat ∧ c.toNat ≤ 126 then
        ({ s with currentInput := s.currentInput ++ input }, sendOutput now input)
      else (s, [])
    | _ => (s, [])

/-- `ShellSession.handleRequestPrompt`. -/
def handleRequestPrompt (now : GoTime) (s : ShellSession) : List Message :=
  showPrompt now s

/-! ### The websocket read loops -/

/-- One delivery from `conn.ReadMessage()`: either frame bytes (already
lexed as JSON, `none` for JSON-syntax-invalid bytes) or a read error. -/
inductive Frame where
  | bytes (j : Option JValue) : Frame
  | readErr : Frame

/-- Observable side effect of the live handler on the remote-shell
handle. -/
inductive Effect where
  | connectShell (md : MessageMetadata) : Effect
deriving Repr, DecidableEq

/-- What a connection handler did over its lifetime: how many shell
sessions it created, and every message written to the client in order. -/
structure ConnTrace where
  sessionsCreated : Nat
  sent : List Message
deriving Repr, DecidableEq

/-- One iteration of the `HandlerDeps.HandleWs` read loop: `none` means
the loop returns (read error; the deferred close fires with nothing
written), otherwise the new shell state and the messages written. -/
def shellLoopStep (now : GoTime) (st : ShellSession) :
    Frame → Option (ShellSession × List Message)
  | .readErr => none
  | .bytes j =>
    match ParseMessage j with
    | .error _ => some (st, [NewSystemMessage now "Invalid message format"])
    | .ok msg =>
      if msg.type = MessageTypeTerminalInput then some (HandleInput now msg.data st)
      else if msg.type = MessageTypeRequestPrompt then
        some (st, handleRequestPrompt now st)
      else some (st, [])

/-- Run the `HandlerDeps.HandleWs` loop over a list of deliveries. -/
def runShellLoop (now : GoTime) (st : ShellSession) : List Frame → List Message
  | [] => []
  | f :: fs =>
    match shellLoopStep now st f with
    | none => []
    | some (st', msgs) => msgs ++ runShellLoop now st' fs

/-- `HandlerDeps.HandleWs` after a successful upgrade: one
`NewShellSession` is created unconditionally, a connected
connection-state message is written, then the read loop runs. -/
def HandlerDepsHandleWs (now : GoTime) (frames : List Frame) : ConnTrace :=
  { sessionsCreated := 1
    sent := NewConnectionStateMessage now ConnectionStateConnected
        "WebSocket connection established" :: runShellLoop now NewShellSession frames }

/-- `handleConnectionRequest` from websocket.go. `connectOk` stands for
the outcome of `shell.Connect(metadata)` (the `ShellConnection` dial
lives in repository code missing from src); on success the remote shell
is connected and a connected connection-state message is written, on
failure (or missing metadata, `ErrInvalidMessageFormat`) an error is
returned to the loop. -/
def handleConnectionRequest (now : GoTime) (connectOk : Bool) (msg : Message) :
    Except Unit (List Message × List Effect) :=
  match msg.metadata with
  | some md =>
    if connectOk then
      .ok ([NewConnectionStateMessage now ConnectionStateConnected "Shell session connected"],
           [Effect.connectShell md])
    else .error ()
  | none => .error ()

/-- One iteration of the live `Connection.HandleWs` read loop from
websocket.go: `none` means the loop returns on a read error (the
deferred close fires with nothing written); otherwise the messages
written and remote-shell effects. Only `connection_request` is handled;
every other decoded type — terminal input, resize, anything unknown —
hits the `default` case, which only logs server-side. -/
def wsLoopStep (now : GoTime) (connectOk : Bool) :
    Frame → Option (List Message × List Effect)
  | .readErr => none
  | .bytes j =>
    match ParseMessage j with
    | .error _ => some ([NewSystemMessage now "Invalid message format"], [])
    | .ok msg =>
      if msg.type = MessageTypeConnectionRequest then
        match handleConnectionRequest now connectOk msg with
        | .ok (msgs, effs) => some (msgs, effs)
        | .error _ => some ([NewSystemMessage now "Failed to handle connection request"], [])
      else some ([], [])

/-- Run the live read loop over a list of deliveries. -/
def runWsLoop (now : GoTime) (connectOk : Bool) : List Frame → List Message × List Effect
  | [] => ([], [])
  | f :: fs =>
    match wsLoopStep now connectOk f with
    | none => ([], [])
    | some (msgs, effs) =>
      let rest := runWsLoop now connectOk fs
      (msgs ++ rest.1, effs ++ rest.2)

/-- Unfolding equation for `runWsLoop` on a cons. -/
theorem runWsLoop_cons (now : GoTime) (cOk : Bool) (f : Frame) (fs : List Frame) :
    runWsLoop now cOk (f :: fs) =
      (match wsLoopStep now cOk f with
       | none => ([], [])
       | some (msgs, effs) =>
         (msgs ++ (runWsLoop now cOk fs).1, effs ++ (runWsLoop now cOk fs).2)) := by
  rfl

/-- `Connection.HandleWs` after a successful upgrade: one
`NewShellConnection` handle is created unconditionally, a connected
connection-state message is written, then the read loop runs. -/
def ConnectionHandleWs (now : GoTime) (connectOk : Bool) (frames : List Frame) :
    ConnTrace × List Effect :=
  let run := runWsLoop now connectOk frames
  ({ sessionsCreated := 1
     sent := NewConnectionStateMessage now ConnectionStateConnected
         "WebSocket connection established" :: run.1 }, run.2)

/-! ### Configuration (package `config`) -/

def isDigitCh (c : Char) : Bool := '0' ≤ c && c ≤ '9'

/-- Value of a nonempty all-digit character list, else `none`. -/
def decDigits? (ds : List Char) : Option Nat :=
  if ds = [] then none
  else if ds.all isDigitCh then
    some (ds.foldl (fun a c => a * 10 + (c.toNat - 48)) 0)
  else none

/-- Go `strconv.Atoi`: optional sign, decimal digits, 64-bit signed
range; anything else is an error. -/
def goAtoi (s : String) : Option Int :=
  let signed : Bool × List Char :=
    match s.data with
    | '+' :: r => (false, r)
    | '-' :: r => (true, r)
    | r => (false, r)
  match decDigits? signed.2 with
  | none => none
  | some n =>
    if signed.1 then
      if (n : Int) ≤ 2 ^ 63 then some (-(n : Int)) else none
    else
      if (n : Int) ≤ 2 ^ 63 - 1 then some (n : Int) else none

/-- The `time.ParseDuration` unit table, unit in nanoseconds. -/
def durUnit? : String → Option Nat
  | "ns" => some 1
  | "us" => some 1000
  | "µs" => some 1000
  | "μs" => some 1000
  | "ms" => some 1000000
  | "s" => some 1000000000
  | "m" => some 60000000000
  | "h" => some 3600000000000
  | _ => none

/-- The component loop of `time.ParseDuration`: each component is
digits, an optional `.fraction`, and a unit; at least one digit must be
present and the unit must be known. The fractional contribution
`uint64(float64(f) * (float64(unit)/scale))` is modelled as the floor
`f * unit / 10^k`. `fuel` bounds recursion; each component consumes at
least its one-character unit, so `length + 1` fuel always suffices. -/
def parseDurComponents : Nat → List Char → Option Nat
  | 0, _ => none
  | _, [] => some 0
  | fuel + 1, cs =>
    let ds := cs.takeWhile isDigitCh
    let iv := ds.foldl (fun a c => a * 10 + (c.toNat - 48)) 0
    let cs1 := cs.drop ds.length
    let step2 : Nat × Nat × List Char :=
      match cs1 with
      | '.' :: cs1' =>
        let fs := cs1'.takeWhile isDigitCh
        (fs.foldl (fun a c => a * 10 + (c.toNat - 48)) 0, fs.length, cs1'.drop fs.length)
      | _ => (0, 0, cs1)
    let fv := step2.1
    let fcnt := step2.2.1
    let cs2 := step2.2.2
    if ds.length = 0 ∧ fcnt = 0 ∧ ¬(cs1.head? = some '.') then none
    else if ds.length = 0 ∧ (cs1.head? = some '.') ∧ fcnt = 0 then none
    else
      let us := cs2.takeWhile (fun c => ¬(isDigitCh c ∨ c = '.'))
      if us.length = 0 then none
      else
        match durUnit? (String.mk us) with
        | none => none
        | some unit =>
          let v := iv * unit + fv * unit / 10 ^ fcnt
          match parseDurComponents fuel (cs2.drop us.length) with
          | none => none
          | some rest => some (v + rest)

/-- Go `time.ParseDuration`: optional sign, the special case `"0"`, then
one or more number+unit components; result in nanoseconds within the
64-bit signed range. -/
def goParseDuration (s : String) : Option Int :=
  let signed : Bool × List Char :=
    match s.data with
    | '-' :: r => (true, r)
    | '+' :: r => (false, r)
    | r => (false, r)
  if signed.2 = ['0'] then some 0
  else if signed.2 = [] then none
  else
    match parseDurComponents (signed.2.length + 1) signed.2 with
    | none => none
    | some n =>
      if signed.1 then
        if (n : Int) ≤ 2 ^ 63 then some (-(n : Int)) else none
      else
        if (n : Int) ≤ 2 ^ 63 - 1 then some (n : Int) else none

namespace config

/-- Defaults from package `config`; durations are `time.Duration` in
nanoseconds. -/
def DefaultPort : String := "3000"

def DefaultFrontendDir : String := "frontend"

def DefaultReadTimeout : Int := 30 * 1000000000

def DefaultWriteTimeout : Int := 30 * 1000000000

def DefaultMaxConnections : Int := 100

def DefaultReadBufferSize : Int := 1024

def DefaultWriteBufferSize : Int := 1024

/-- `parseDuration` helper from package `config`. -/
def parseDuration (value : String) (defaultValue : Int) : Int :=
  if value = "" then defaultValue
  else
    match goParseDuration value with
    | none => defaultValue
    | some d => if d ≤ 0 then defaultValue else d

/-- `parseInt` helper from package `config`. -/
def parseInt (value : String) (defaultValue : Int) : Int :=
  if value = "" then defaultValue
  else
    match goAtoi value with
    | none => defaultValue
    | some n => if n ≤ 0 then defaultValue else n

/-- `config.Server`. `FrontendDir` is its underlying string. -/
structure Server where
  Port : String
  FrontendDir : String
  ReadTimeout : Int
  WriteTimeout : Int
  MaxConnections : Int
  ReadBufferSize : Int
  WriteBufferSize : Int
deriving Repr, DecidableEq

/-- `config.NewServer`: reads each environment variable (`env` models
`os.Getenv`, returning `""` for unset), substitutes the default's
rendering when empty (`DefaultReadTimeout.String()` is `"30s"`,
`strconv.Itoa` of the integer defaults), then parses with the helpers. -/
def NewServer (env : String → String) : Server :=
  let port := if env "WEB_SSH_PORT" = "" then DefaultPort else env "WEB_SSH_PORT"
  let frontendDir :=
    if env "WEB_SSH_FRONTEND_DIR" = "" then DefaultFrontendDir
    else env "WEB_SSH_FRONTEND_DIR"
  let readTimeout :=
    if env "WEB_SSH_READ_TIMEOUT" = "" then "30s" else env "WEB_SSH_READ_TIMEOUT"
  let writeTimeout :=
    if env "WEB_SSH_WRITE_TIMEOUT" = "" then "30s" else env "WEB_SSH_WRITE_TIMEOUT"
  let maxConnections :=
    if env "WEB_SSH_MAX_CONNECTIONS" = "" then "100" else env "WEB_SSH_MAX_CONNECTIONS"
  let readBufferSize :=
    if env "WEB_SSH_READ_BUFFER_SIZE" = "" then "1024" else env "WEB_SSH_READ_BUFFER_SIZE"
  let writeBufferSize :=
    if env "WEB_SSH_WRITE_BUFFER_SIZE" = "" then "1024" else env "WEB_SSH_WRITE_BUFFER_SIZE"
  { Port := port
    FrontendDir := frontendDir
    ReadTimeout := parseDuration readTimeout DefaultReadTimeout
    WriteTimeout := parseDuration writeTimeout DefaultWriteTimeout
    MaxConnections := parseInt maxConnections DefaultMaxConnections
    ReadBufferSize := parseInt readBufferSize DefaultReadBufferSize
    WriteBufferSize := parseInt writeBufferSize DefaultWriteBufferSize }

end config

/-! ### Spec-side helper definitions -/

/-- Modelled from the spec: `CommandRule` (§3) — the repository contains
no implementation of the command filter (the spec itself notes the
middleware chain is not yet implemented), so the rule shape is taken
from the spec's words: a literal pattern with action `block`. -/
structure CommandRule where
  pattern : String
deriving Repr, DecidableEq

/-- Modelled from the spec: a terminal-input payload matches a
CommandRule when its normalized form equals the rule's literal
pattern (§4.3: "normalizes the payload, matches it against
CommandRules"). -/
def matchesRule (r : CommandRule) (payload : String) : Bool :=
  goTrimSpace payload = r.pattern

/-- The spec's closed wire enumeration of message types (§6). -/
def specWireTypes : List String :=
  ["connection_request", "terminal_input", "terminal_output", "terminal_error",
   "system_message", "connection_state", "resize", "terminal_resize", "request_prompt"]

/-- Every character of the buffer is printable ASCII (0x20–0x7E). -/
def bufPrintable (s : String) : Bool :=
  s.data.all (fun c => 32 ≤ c.toNat && c.toNat ≤ 126)

/-- Feed a sequence of terminal inputs through `HandleInput`, keeping
the final session state. -/
def applyInputs (now : GoTime) (inputs : List String) (s : ShellSession) : ShellSession :=
  inputs.foldl (fun st i => (HandleInput now i st).1) s

/-! ### Claims -/

/-- C7: `NewTerminalOutput s c e` keeps `Data` exactly `s` (nothing is
filtered or stripped), and its `has_ansi` metadata flag is exactly
`containsAnsiCodes s`, a function of the payload alone — the command and
exit-code arguments do not influence it. -/
theorem terminal_output_preserves_data_and_flags_ansi
    (now : GoTime) (s c : String) (e : Option Int) :
    (NewTerminalOutput now s c e).data = s ∧
    (NewTerminalOutput now s c e).metadata =
      some { hasAnsi := containsAnsiCodes s, exitCode := e, command := c,
             sshHost := "", sshUser := "", sessionID := "" } :=
  ⟨rfl, rfl⟩

/-- C8: `NewConnectionStateMessage state message` is a
`connection_state` message whose data is the JSON object with key
`state` bound to the given state and key `message` present exactly when
the message string is nonempty. -/
theorem connection_state_message_shape (now : GoTime) (st : ConnectionState) (m : String) :
    (NewConnectionStateMessage now st m).type = MessageTypeConnectionState ∧
    (NewConnectionStateMessage now st m).data =
      "\x7b\"state\":" ++ goEncodeString st ++
        (if m = "" then "" else ",\"message\":" ++ goEncodeString m) ++ "\x7d" ∧
    (m = "" → (NewConnectionStateMessage now st m).data =
      "\x7b\"state\":" ++ goEncodeString st ++ "\x7d") := by
  refine ⟨rfl, rfl, fun h => ?_⟩
  simp [NewConnectionStateMessage, NewMessage, marshalConnStateMsg, h]

/-- Witness for C8 at a concrete state and empty message. -/
theorem connection_state_message_shape_witness :
    (NewConnectionStateMessage GoTime.zero ConnectionStateConnected "").data =
      "\x7b\"state\":\"connected\"\x7d" := by
  have h := connection_state_message_shape GoTime.zero ConnectionStateConnected ""
  exact (h.2.2 rfl).trans (by rfl)

/-- `parseInt` returns the parsed value exactly when it parses and is
strictly positive, otherwise the default. -/
theorem parseInt_eq (v : String) (d : Int) :
    config.parseInt v d =
      (match goAtoi v with
       | some n => if 0 < n then n else d
       | none => d) := by
  unfold config.parseInt
  by_cases hv : v = ""
  · subst hv
    rfl
  · simp only [hv, if_false]
    cases h : goAtoi v with
    | none => simp
    | some n =>
      simp only
      rcases le_or_lt n 0 with h1 | h1
      · rw [if_pos h1, if_neg (not_lt.mpr h1)]
      · rw [if_neg (not_le.mpr h1), if_pos h1]

/-- `parseInt` is positive whenever its default is. -/
theorem parseInt_pos (v : String) (d : Int) (hd : 0 < d) : 0 < config.parseInt v d := by
  rw [parseInt_eq]
  cases h : goAtoi v with
  | none => exact hd
  | some n =>
    simp only
    split
    · assumption
    · exact hd

/-- `parseDuration` returns the parsed duration exactly when it parses
and is strictly positive, otherwise the default. -/
theorem parseDuration_eq (v : String) (d : Int) :
    config.parseDuration v d =
      (match goParseDuration v with
       | some n => if 0 < n then n else d
       | none => d) := by
  unfold config.parseDuration
  by_cases hv : v = ""
  · subst hv
    rfl
  · simp only [hv, if_false]
    cases h : goParseDuration v with
    | none => simp
    | some n =>
      simp only
      rcases le_or_lt n 0 with h1 | h1
      · rw [if_pos h1, if_neg (not_lt.mpr h1)]
      · rw [if_neg (not_le.mpr h1), if_pos h1]

/-- `parseDuration` is positive whenever its default is. -/
theorem parseDuration_pos (v : String) (d : Int) (hd : 0 < d) :
    0 < config.parseDuration v d := by
  rw [parseDuration_eq]
  cases h : goParseDuration v with
  | none => exact hd
  | some n =>
    simp only
    split
    · assumption
    · exact hd

/-- C10: with positive defaults, `parseInt` and `parseDuration` always
return a strictly positive result — the parsed value when it parses and
is positive, otherwise the default — and consequently every
configuration built by `config.NewServer` has strictly positive
timeouts, max connections and buffer sizes, whatever the environment. -/
theorem config_parse_helpers_positive (v : String) (dI dD : Int)
    (hI : 0 < dI) (hD : 0 < dD) :
    (0 < config.parseInt v dI ∧
      config.parseInt v dI =
        (match goAtoi v with
         | some n => if 0 < n then n else dI
         | none => dI)) ∧
    (0 < config.parseDuration v dD ∧
      config.parseDuration v dD =
        (match goParseDuration v with
         | some n => if 0 < n then n else dD
         | none => dD)) ∧
    ∀ env : String → String,
      0 < (config.NewServer env).ReadTimeout ∧
      0 < (config.NewServer env).WriteTimeout ∧
      0 < (config.NewServer env).MaxConnections ∧
      0 < (config.NewServer env).ReadBufferSize ∧
      0 < (config.NewServer env).WriteBufferSize := by
  refine ⟨⟨parseInt_pos v dI hI, parseInt_eq v dI⟩,
          ⟨parseDuration_pos v dD hD, parseDuration_eq v dD⟩, fun env => ?_⟩
  refine ⟨?_, ?_, ?_, ?_, ?_⟩
  · exact parseDuration_pos _ _ (by norm_num [config.DefaultReadTimeout])
  · exact parseDuration_pos _ _ (by norm_num [config.DefaultWriteTimeout])
  · exact parseInt_pos _ _ (by norm_num [config.DefaultMaxConnections])
  · exact parseInt_pos _ _ (by norm_num [config.DefaultReadBufferSize])
  · exact parseInt_pos _ _ (by norm_num [config.DefaultWriteBufferSize])

/-- Witness for C10 at a concrete unparsable value, concrete positive
defaults and the empty environment. -/
theorem config_parse_helpers_positive_witness :
    ((0 < config.parseInt "abc" 5 ∧
       config.parseInt "abc" 5 =
         (match goAtoi "abc" with
          | some n => if 0 < n then n else 5
          | none => 5)) ∧
     (0 < config.parseDuration "abc" 7 ∧
       config.parseDuration "abc" 7 =
         (match goParseDuration "abc" with
          | some n => if 0 < n then n else 7
          | none => 7)) ∧
     ∀ env : String → String,
       0 < (config.NewServer env).ReadTimeout ∧
       0 < (config.NewServer env).WriteTimeout ∧
       0 < (config.NewServer env).MaxConnections ∧
       0 < (config.NewServer env).ReadBufferSize ∧
       0 < (config.NewServer env).WriteBufferSize) :=
  config_parse_helpers_positive "abc" 5 7 (by norm_num) (by norm_num)

/-- C4: a malformed frame is recovered locally: the live read loop sends
exactly one `system_message` diagnostic, produces no remote-shell
effect, and continues — processing of subsequent frames is unchanged. -/
theorem malformed_frame_recovered_locally (now : GoTime) (cOk : Bool)
    (j : Option JValue) (fs : List Frame) (h : ParseMessage j = .error ()) :
    wsLoopStep now cOk (.bytes j) =
      some ([NewSystemMessage now "Invalid message format"], []) ∧
    runWsLoop now cOk (.bytes j :: fs) =
      (NewSystemMessage now "Invalid message format" :: (runWsLoop now cOk fs).1,
       (runWsLoop now cOk fs).2) := by
  have hstep : wsLoopStep now cOk (.bytes j) =
      some ([NewSystemMessage now "Invalid message format"], []) := by
    simp [wsLoopStep, h]
  refine ⟨hstep, ?_⟩
  rw [runWsLoop_cons, hstep]
  simp

/-- Witness for C4 at syntactically invalid frame bytes. -/
theorem malformed_frame_recovered_locally_witness :
    wsLoopStep GoTime.zero true (.bytes none) =
      some ([NewSystemMessage GoTime.zero "Invalid message format"], []) ∧
    runWsLoop GoTime.zero true [.bytes none] =
      (NewSystemMessage GoTime.zero "Invalid message format" ::
        (runWsLoop GoTime.zero true []).1,
       (runWsLoop GoTime.zero true []).2) :=
  malformed_frame_recovered_locally GoTime.zero true none [] rfl

/-- C1 counterexample: a frame whose `type` is outside the closed
enumeration decodes successfully (`ParseMessage` performs no type
validation, so no `FormatError` results), and the read loop's default
case drops it sending nothing to the client — no `system_message`
diagnostic. -/
theorem unknown_type_decodes_and_is_dropped_cex :
    ParseMessage (some (JValue.obj
        [("type", JValue.str "bogus_type"), ("data", JValue.str "hi")])) =
      .ok { type := "bogus_type", data := "hi",
            timestamp := GoTime.zero, metadata := none } ∧
    wsLoopStep GoTime.zero true (.bytes (some (JValue.obj
        [("type", JValue.str "bogus_type"), ("data", JValue.str "hi")]))) =
      some ([], []) := by
  constructor <;> rfl

/-- C1 as amended: malformed JSON still fails closed — decode yields an
error and the loop answers with exactly one `system_message` — but an
unrecognized `type` is not rejected: it decodes into a `Message`
carrying that type unchanged and the loop drops the frame silently
(server-side log only), sending nothing. -/
theorem decode_malformed_vs_unknown_type (now : GoTime) (cOk : Bool) (j : Option JValue) :
    (ParseMessage j = .error () →
      wsLoopStep now cOk (.bytes j) =
        some ([NewSystemMessage now "Invalid message format"], [])) ∧
    (∀ msg : Message, ParseMessage j = .ok msg → msg.type ∉ specWireTypes →
      wsLoopStep now cOk (.bytes j) = some ([], [])) := by
  constructor
  · intro h
    simp [wsLoopStep, h]
  · intro msg h hne
    have hneq : ¬(msg.type = MessageTypeConnectionRequest) := by
      intro he
      exact hne (he ▸ (by decide : MessageTypeConnectionRequest ∈ specWireTypes))
    simp [wsLoopStep, h, hneq]

/-- Witness for C1 (amended) at invalid bytes and at an unknown type. -/
theorem decode_malformed_vs_unknown_type_witness :
    wsLoopStep GoTime.zero true (.bytes none) =
      some ([NewSystemMessage GoTime.zero "Invalid message format"], []) ∧
    wsLoopStep GoTime.zero true
        (.bytes (some (JValue.obj [("type", JValue.str "bogus_type")]))) =
      some ([], []) :=
  ⟨(decode_malformed_vs_unknown_type GoTime.zero true none).1 rfl,
   (decode_malformed_vs_unknown_type GoTime.zero true
      (some (JValue.obj [("type", JValue.str "bogus_type")]))).2
     { type := "bogus_type", data := "", timestamp := GoTime.zero, metadata := none }
     rfl (by decide)⟩

/-- C5 counterexample: the transport-read-error path terminates the read
loop with no explanatory message — the connection is closed (by the
deferred close) after zero messages, a silent drop. -/
theorem read_error_silent_close_cex :
    wsLoopStep GoTime.zero true Frame.readErr = none ∧
    runWsLoop GoTime.zero true [Frame.readErr] = ([], []) :=
  ⟨rfl, rfl⟩

/-- C5 as amended: the recoverable failures each produce exactly one
explanatory message and keep the connection open (malformed frame; a
connection request that fails), but a transport read error — including
mid-session — terminates the handler with no message at all, so the
client can observe a silent drop. -/
theorem diagnostics_before_close (now : GoTime) (cOk : Bool) (j : Option JValue) :
    (ParseMessage j = .error () →
      wsLoopStep now cOk (.bytes j) =
        some ([NewSystemMessage now "Invalid message format"], [])) ∧
    (∀ msg : Message, ParseMessage j = .ok msg →
      msg.type = MessageTypeConnectionRequest →
      handleConnectionRequest now cOk msg = .error () →
      wsLoopStep now cOk (.bytes j) =
        some ([NewSystemMessage now "Failed to handle connection request"], [])) ∧
    wsLoopStep now cOk Frame.readErr = none := by
  refine ⟨fun h => by simp [wsLoopStep, h], ?_, rfl⟩
  intro msg h ht hc
  simp [wsLoopStep, h, ht, hc]

/-- Witness for C5 (amended): invalid bytes, a metadata-less connection
request (which `handleConnectionRequest` rejects), and a read error. -/
theorem diagnostics_before_close_witness :
    wsLoopStep GoTime.zero true (.bytes none) =
      some ([NewSystemMessage GoTime.zero "Invalid message format"], []) ∧
    wsLoopStep GoTime.zero true
        (.bytes (some (JValue.obj [("type", JValue.str "connection_request")]))) =
      some ([NewSystemMessage GoTime.zero "Failed to handle connection request"], []) ∧
    wsLoopStep GoTime.zero true Frame.readErr = none :=
  ⟨(diagnostics_before_close GoTime.zero true none).1 rfl,
   (diagnostics_before_close GoTime.zero true
      (some (JValue.obj [("type", JValue.str "connection_request")]))).2.1
     { type := "connection_request", data := "",
       timestamp := GoTime.zero, metadata := none } rfl rfl rfl,
   (diagnostics_before_close GoTime.zero true none).2.2⟩

/-- C6 counterexample: a `terminal_resize` message with explicit columns
and rows, sent right after the session became active (the connect effect
has fired), produces no message and no remote-shell effect — the PTY
geometry is not changed to the given columns and rows. -/
theorem resize_ignored_cex :
    ParseMessage (some (JValue.obj [("type", JValue.str "terminal_resize"),
        ("cols", JValue.num 120), ("rows", JValue.num 40)])) =
      .ok { type := "terminal_resize", data := "",
            timestamp := GoTime.zero, metadata := none } ∧
    runWsLoop GoTime.zero true
        [Frame.bytes (some (JValue.obj [("type", JValue.str "connection_request"),
            ("metadata", JValue.obj [])])),
         Frame.bytes (some (JValue.obj [("type", JValue.str "terminal_resize"),
            ("cols", JValue.num 120), ("rows", JValue.num 40)]))] =
      ([NewConnectionStateMessage GoTime.zero ConnectionStateConnected
          "Shell session connected"],
       [Effect.connectShell MessageMetadata.zero]) := by
  constructor <;> rfl

/-- C6 as amended: resize messages (`terminal_resize`/`resize`) are
ignored at every point of the connection's life — no handler case exists
for them, so the frame is dropped with no message, no remote-shell
effect, and nothing queued: removing the frame leaves the rest of the
run unchanged. The PTY geometry is never changed by any message. -/
theorem resize_never_applied_nor_queued (now : GoTime) (cOk : Bool)
    (j : Option JValue) (msg : Message) (fs : List Frame)
    (h : ParseMessage j = .ok msg)
    (ht : msg.type = "terminal_resize" ∨ msg.type = "resize") :
    wsLoopStep now cOk (.bytes j) = some ([], []) ∧
    runWsLoop now cOk (.bytes j :: fs) = runWsLoop now cOk fs := by
  have hneq : ¬(msg.type = MessageTypeConnectionRequest) := by
    rcases ht with h1 | h1 <;> rw [h1] <;> decide
  have hstep : wsLoopStep now cOk (.bytes j) = some ([], []) := by
    simp [wsLoopStep, h, hneq]
  refine ⟨hstep, ?_⟩
  rw [runWsLoop_cons, hstep]
  simp

/-- Witness for C6 (amended) at a concrete `terminal_resize` frame. -/
theorem resize_never_applied_nor_queued_witness :
    wsLoopStep GoTime.zero true
        (.bytes (some (JValue.obj [("type", JValue.str "terminal_resize")]))) =
      some ([], []) ∧
    runWsLoop GoTime.zero true
        [Frame.bytes (some (JValue.obj [("type", JValue.str "terminal_resize")]))] =
      runWsLoop GoTime.zero true [] :=
  resize_never_applied_nor_queued GoTime.zero true
    (some (JValue.obj [("type", JValue.str "terminal_resize")]))
    { type := "terminal_resize", data := "", timestamp := GoTime.zero, metadata := none }
    [] rfl (Or.inl rfl)

/-- C2 counterexample: sessions exist without authentication. A
connection that sends no message at all — so it certainly never
authenticates — still gets a `ShellSession` at upgrade time; and the
live handler connects the remote shell for a bare `connection_request`
whose metadata carries no credentials, with no authentication step
anywhere. -/
theorem session_without_auth_cex :
    (HandlerDepsHandleWs GoTime.zero []).sessionsCreated = 1 ∧
    (ConnectionHandleWs GoTime.zero true
        [Frame.bytes (some (JValue.obj [("type", JValue.str "connection_request"),
            ("metadata", JValue.obj [])]))]).2 =
      [Effect.connectShell MessageMetadata.zero] := by
  constructor <;> rfl

/-- C2 as amended: exactly one session object is created per transport
connection — but unconditionally, at upgrade time, before any message is
processed; no authentication gate exists, so unauthenticated connections
acquire a session too. -/
theorem one_session_per_connection (now : GoTime) (cOk : Bool) (frames : List Frame) :
    (HandlerDepsHandleWs now frames).sessionsCreated = 1 ∧
    (ConnectionHandleWs now cOk frames).1.sessionsCreated = 1 :=
  ⟨rfl, rfl⟩

/-- Every message `executeCommand` emits is a terminal-output message. -/
theorem executeCommand_types (now : GoTime) (cmd : String) :
    (executeCommand now cmd).all (fun m => m.type == MessageTypeTerminalOutput) = true := by
  unfold executeCommand
  split_ifs <;>
    first
      | rfl
      | (dsimp only; split <;> rfl)

/-- Every message `HandleInput` emits is a terminal-output message; in
particular no input ever produces a `terminal_error`. -/
theorem handleInput_types (now : GoTime) (input : String) (s : ShellSession) :
    ((HandleInput now input s).2.all (fun m => m.type == MessageTypeTerminalOutput)) = true := by
  unfold HandleInput
  split
  · unfold processCommand sendOutput showPrompt
    dsimp only
    simp only [List.all_append, Bool.and_eq_true]
    exact ⟨⟨rfl, executeCommand_types now _⟩, rfl⟩
  · split
    · unfold handleBackspace
      split
      · rfl
      · rfl
    · split
      · split
        · rfl
        · rfl
      · rfl

/-- C3 counterexample: the payload `rm -rf /` matches a configured
CommandRule with that literal pattern, yet no `terminal-error` is
emitted anywhere: the live read loop drops `terminal_input` frames with
no message and no remote-shell effect, and the simulated shell ignores
the multi-character payload entirely. -/
theorem blocked_command_not_rejected_cex :
    matchesRule ⟨"rm -rf /"⟩ "rm -rf /" = true ∧
    wsLoopStep GoTime.zero true
        (.bytes (some (JValue.obj [("type", JValue.str "terminal_input"),
            ("data", JValue.str "rm -rf /")]))) =
      some ([], []) ∧
    HandleInput GoTime.zero "rm -rf /" NewShellSession = (NewShellSession, []) := by
  refine ⟨?_, ?_, ?_⟩ <;> rfl

/-- C3 as amended: no command filter exists. Terminal input never
reaches a remote shell — the live handler ignores `terminal_input`
frames outright (no message, no effect), and the simulated shell
interprets input locally, only ever emitting `terminal_output` — so even
payloads matching a CommandRule produce no `terminal-error`. -/
theorem no_command_filter_only_terminal_output (now : GoTime) (input : String)
    (s : ShellSession) :
    ((HandleInput now input s).2.all (fun m => m.type == MessageTypeTerminalOutput)) = true ∧
    (∀ (cOk : Bool) (j : Option JValue) (msg : Message),
      ParseMessage j = .ok msg → msg.type = MessageTypeTerminalInput →
      wsLoopStep now cOk (.bytes j) = some ([], [])) := by
  refine ⟨handleInput_types now input s, ?_⟩
  intro cOk j msg h ht
  have hneq : ¬(msg.type = MessageTypeConnectionRequest) := by
    rw [ht]; decide
  simp [wsLoopStep, h, hneq]

/-- Witness for C3 (amended) at a concrete input and frame. -/
theorem no_command_filter_only_terminal_output_witness :
    ((HandleInput GoTime.zero "a" NewShellSession).2.all
        (fun m => m.type == MessageTypeTerminalOutput)) = true ∧
    wsLoopStep GoTime.zero true
        (.bytes (some (JValue.obj [("type", JValue.str "terminal_input"),
            ("data", JValue.str "rm -rf /")]))) =
      some ([], []) :=
  ⟨(no_command_filter_only_terminal_output GoTime.zero "a" NewShellSession).1,
   (no_command_filter_only_terminal_output GoTime.zero "a" NewShellSession).2 true
     (some (JValue.obj [("type", JValue.str "terminal_input"),
        ("data", JValue.str "rm -rf /")]))
     { type := "terminal_input", data := "rm -rf /",
       timestamp := GoTime.zero, metadata := none } rfl rfl⟩

/-- One `HandleInput` step preserves all-printable-ASCII of the buffer. -/
theorem handleInput_printable (now : GoTime) (i : String) (s : ShellSession)
    (h : bufPrintable s.currentInput = true) :
    bufPrintable ((HandleInput now i s).1).currentInput = true := by
  unfold HandleInput
  split
  · rfl
  · split
    · unfold handleBackspace
      split
      · dsimp only
        unfold bufPrintable at h ⊢
        rw [List.all_eq_true] at h ⊢
        intro c hc
        exact h c (List.dropLast_subset _ hc)
      · exact h
    · split
      · rename_i c heq
        split
        · rename_i hc
          dsimp only
          unfold bufPrintable at h ⊢
          rw [String.data_append, List.all_append, Bool.and_eq_true]
          refine ⟨h, ?_⟩
          rw [heq]
          simp only [List.all_cons, List.all_nil, Bool.and_true, Bool.and_eq_true,
            decide_eq_true_eq]
          exact ⟨hc.1, hc.2⟩
        · exact h
      · exact h

/-- C9: starting from a fresh `ShellSession`, any sequence of
`HandleInput` calls leaves the input buffer consisting only of printable
ASCII bytes (0x20–0x7E) — only single printable characters are ever
appended — and a backspace received on an empty buffer leaves the
session unchanged and emits no output. -/
theorem input_buffer_printable_invariant (now : GoTime) (inputs : List String) :
    bufPrintable (applyInputs now inputs NewShellSession).currentInput = true ∧
    ∀ s : ShellSession, s.currentInput = "" →
      HandleInput now "\u007F" s = (s, []) := by
  constructor
  · have hgen : ∀ (l : List String) (s : ShellSession),
        bufPrintable s.currentInput = true →
        bufPrintable (applyInputs now l s).currentInput = true := by
      intro l
      induction l with
      | nil => intro s h; exact h
      | cons i rest ih =>
        intro s h
        exact ih _ (handleInput_printable now i s h)
    exact hgen inputs NewShellSession rfl
  · intro s h
    unfold HandleInput
    have h1 : ¬("\u007F" = "\r" ∨ "\u007F" = "\n") := by decide
    rw [if_neg h1, if_pos rfl]
    unfold handleBackspace
    rw [h]
    simp

/-- Witness for C9 at a concrete input sequence and the fresh session. -/
theorem input_buffer_printable_invariant_witness :
    bufPrintable (applyInputs GoTime.zero ["l", "s", "\u007F"]
        NewShellSession).currentInput = true ∧
    HandleInput GoTime.zero "\u007F" NewShellSession = (NewShellSession, []) :=
  ⟨(input_buffer_printable_invariant GoTime.zero ["l", "s", "\u007F"]).1,
   (input_buffer_printable_invariant GoTime.zero []).2 NewShellSession rfl⟩

end WebSSH
